import Mathlib

/-!
Shallow embedding of the voice-analysis core of `src/app.py`
(`class VoiceAnalyzer`): audio ingestion (`load_audio`), the six-metric
scoring pipeline (`analyze_voice`), the level classifier
(`get_evaluation_level`) and the diagnosis generator (`generate_diagnosis`).

Python floats are embedded as exact rationals (`ℚ`); Python's `int(...)`
conversion is truncation toward zero (`pyInt`).  The librosa feature
extractors (`spectral_centroid`, `piptrack`, `beat_track`, `feature.rms`,
`spectral_rolloff`) and numpy reductions are external library calls, so
their outputs are inputs (`Features`) to the embedded scoring code; all
arithmetic performed by `app.py` itself on those outputs is embedded
literally.
-/

namespace VoiceAnalysis

/-- Python's `int(x)` conversion on a real value: truncation toward zero.
On a reduced rational `num/den` (with `den > 0`) this is exactly the
sign-truncating integer division of the numerator by the denominator. -/
def pyInt (q : ℚ) : ℤ := q.num.tdiv q.den

/-- The analysis purpose selected in the form: `"singing" | "speaking" |
"presentation"` (the empty selection is rejected by the form validation in
`main` before `analyze_voice` is ever called). -/
inductive Purpose where
  | singing
  | speaking
  | presentation
deriving DecidableEq

/-- The metrics dictionary built by `analyze_voice`: the six fixed keys, in
insertion order `volume, clarity, pitch_stability, rhythm, expression,
resonance`. -/
structure MetricSet where
  volume : ℤ
  clarity : ℤ
  pitch_stability : ℤ
  rhythm : ℤ
  expression : ℤ
  resonance : ℤ
deriving DecidableEq

/-- The feature values that `analyze_voice` obtains from librosa/numpy on a
given audio buffer, everything the in-repo arithmetic consumes:
* `rmsNonSilent`: `sqrt(mean(non_silent**2))` over samples with `|y| > 0.01`,
  `none` when no sample exceeds the threshold (app.py lines 69-74);
* `centroidMean`: `np.mean` of `librosa.feature.spectral_centroid` (line 79);
* `pitchStd`: `np.std` of the positive per-frame `piptrack` pitches,
  `none` when no frame has a positive pitch (lines 83-95);
* `tempo`: the `librosa.beat.beat_track` tempo estimate in BPM (line 99);
* `rmsFrames`: `librosa.feature.rms(y, frame_length=1024, hop_length=256)[0]`
  (line 112);
* `cv`: `np.std(non_silent) / np.mean(non_silent)` over the non-silent
  frames of `rmsFrames` (line 119);
* `rolloffMean`: `np.mean` of `librosa.feature.spectral_rolloff` (line 128).
-/
structure Features where
  rmsNonSilent : Option ℚ
  centroidMean : ℚ
  pitchStd : Option ℚ
  tempo : ℚ
  rmsFrames : List ℚ
  cv : ℚ
  rolloffMean : ℚ
deriving DecidableEq

/-- Basic facts about the librosa/numpy feature values that hold for every
audio buffer: the RMS over samples of absolute value `> 0.01` exceeds
`0.01`, and spectral centroid, tempo and rolloff are nonnegative. -/
def Features.Valid (f : Features) : Prop :=
  (∀ r ∈ f.rmsNonSilent, 1/100 < r) ∧
  0 ≤ f.centroidMean ∧ 0 ≤ f.tempo ∧ 0 ≤ f.rolloffMean

/-- Metric 1 (app.py lines 66-75): `min(99, int(rms_non_silent * 500))`, or
the fixed floor `10` when every sample is below the silence threshold. -/
def volume_score (f : Features) : ℤ :=
  match f.rmsNonSilent with
  | some r => min 99 (pyInt (r * 500))
  | none => 10

/-- Metric 2 (lines 78-80): `min(99, int(mean(spectral_centroids) / 40))`. -/
def clarity_score (f : Features) : ℤ :=
  min 99 (pyInt (f.centroidMean / 40))

/-- Metric 3 (lines 83-96): `max(10, min(99, int(99 - pitch_std / 10)))`
when some frame has a positive pitch, else the fixed neutral `50`. -/
def pitch_stability_score (f : Features) : ℤ :=
  match f.pitchStd with
  | some s => max 10 (min 99 (pyInt (99 - s / 10)))
  | none => 50

/-- Metric 4 (lines 99-106): for `speaking`,
`min(99, int(50 + abs(120 - tempo) / 2))`; otherwise `min(99, int(tempo / 2))`. -/
def rhythm_score (f : Features) (purpose : Purpose) : ℤ :=
  match purpose with
  | .speaking => min 99 (pyInt (50 + |120 - f.tempo| / 2))
  | _ => min 99 (pyInt (f.tempo / 2))

/-- Line 115: `rms_frames[rms_frames > np.max(rms_frames) * 0.1]` — the
frames strictly above 10% of the maximum frame energy. -/
def non_silent_frames (frames : List ℚ) : List ℚ :=
  frames.filter (fun r => decide ((frames.foldr max 0) * (1/10) < r))

/-- Metric 5 (lines 110-124): if strictly more than 10 non-silent frames
remain, `min(95, max(30, int(30 + variation * 650)))` where `variation` is
the coefficient of variation `f.cv` of those frames; else the default `40`. -/
def expression_score (f : Features) : ℤ :=
  if 10 < (non_silent_frames f.rmsFrames).length then
    min 95 (max 30 (pyInt (30 + f.cv * 650)))
  else 40

/-- Metric 6 (lines 127-129): `min(99, int(mean(rolloff) / 50))`. -/
def resonance_score (f : Features) : ℤ :=
  min 99 (pyInt (f.rolloffMean / 50))

/-- The metrics dictionary as populated by lines 64-129, before the
purpose-specific multiplier pass. -/
def baseMetrics (f : Features) (p : Purpose) : MetricSet :=
  { volume := volume_score f
    clarity := clarity_score f
    pitch_stability := pitch_stability_score f
    rhythm := rhythm_score f p
    expression := expression_score f
    resonance := resonance_score f }

/-- One multiplier application of lines 132-140: `min(99, int(x * mult))`,
applied to an already-capped integer score. -/
def bump (x : ℤ) (mult : ℚ) : ℤ := min 99 (pyInt ((x : ℚ) * mult))

/-- `VoiceAnalyzer.analyze_voice` (lines 62-142): the six metric scores
followed by the purpose-specific multiplier pass
(`singing`: pitch_stability ×1.2, expression ×1.1; `speaking`: clarity ×1.2,
rhythm ×1.1; `presentation`: volume ×1.1, clarity ×1.1). -/
def analyze_voice (f : Features) (p : Purpose) : MetricSet :=
  let m := baseMetrics f p
  match p with
  | .singing =>
      { m with pitch_stability := bump m.pitch_stability 1.2
               expression := bump m.expression 1.1 }
  | .speaking =>
      { m with clarity := bump m.clarity 1.2
               rhythm := bump m.rhythm 1.1 }
  | .presentation =>
      { m with volume := bump m.volume 1.1
               clarity := bump m.clarity 1.1 }

/-- `sum(metrics.values())` (line 210). -/
def totalScore (m : MetricSet) : ℤ :=
  m.volume + m.clarity + m.pitch_stability + m.rhythm + m.expression + m.resonance

/-- `VoiceAnalyzer.get_evaluation_level` (lines 195-206). -/
def get_evaluation_level (total_score : ℤ) : String × String :=
  if 450 ≤ total_score then ("S", "プロフェッショナルレベル")
  else if 400 ≤ total_score then ("A", "非常に優秀")
  else if 350 ≤ total_score then ("B", "良好")
  else if 300 ≤ total_score then ("C", "標準的")
  else ("D", "改善の余地あり")

end VoiceAnalysis

namespace VoiceAnalysis

/-- Splitting a character list on a separator, the semantics of Python's
`str.split(sep)` for a one-character separator: empty pieces are kept, and
a list with no separator yields the single whole piece. -/
def splitChar (sep : Char) : List Char → List (List Char)
  | [] => [[]]
  | c :: cs =>
    match splitChar sep cs with
    | [] => [[c]]
    | p :: ps => if c = sep then [] :: p :: ps else (c :: p) :: ps

/-- ASCII lowercasing of a string, the effect of Python's `str.lower()` on
the ASCII filename extensions this program compares against. -/
def lowerString (s : String) : String := ⟨s.data.map Char.toLower⟩

/-- `audio_file.name.split(".")[-1].lower()` (app.py line 27). -/
def file_extension (filename : String) : String :=
  lowerString ⟨(splitChar '.' filename.data).getLastD []⟩

/-- Whether `pat` occurs as a contiguous substring, the semantics of
Python's `pat in msg`. -/
def hasSubstring (pat : List Char) : List Char → Bool
  | [] => pat.isEmpty
  | c :: cs => pat.isPrefixOf (c :: cs) || hasSubstring pat cs

/-- The analysis sample rate fixed in `VoiceAnalyzer.__init__`. -/
def sample_rate : ℕ := 22050

/-- The `ValueError` message raised for `.m4a` files (line 31). -/
def m4aMessage : String :=
  "M4Aファイルは現在サポートされていません。WAV、MP3ファイルをご利用ください。"

/-- The `ValueError` message raised when the decoder reports an
unrecognised format (line 59). -/
def formatMessage (ext : String) : String :=
  "音声ファイル形式(" ++ ext ++ ")がサポートされていません。WAVまたはMP3ファイルをご利用ください。"

/-- `VoiceAnalyzer.load_audio` (lines 25-60).  Decoding is performed by the
external call `librosa.load(path, sr=22050, duration=30)`; its outcome is
passed in as `decoded`: `.ok full` carries the full decoded mono sample
stream at 22050 Hz (of which the `duration=30` argument keeps at most the
first 30 seconds), `.error msg` a decode exception message.  The result is
either the returned `(y, sr, duration)` triple or the raised error
message.

`ingest_ok` is the success branch (lines 42-52): keep at most 30 seconds
of samples (the `duration=30` load argument), compute the duration of the
kept buffer, trim again when it still exceeds 30 seconds, and return the
buffer with the literal duration `30.0` of line 52. -/
def ingest_ok (full : List ℚ) : List ℚ × ℕ × ℚ :=
  let y := full.take (30 * sample_rate)
  let duration : ℚ := (y.length : ℚ) / (sample_rate : ℚ)
  let y := if 30 < duration then y.take (30 * sample_rate) else y
  (y, sample_rate, 30)

def load_audio (filename : String) (decoded : Except String (List ℚ)) :
    Except String (List ℚ × ℕ × ℚ) :=
  let ext := file_extension filename
  if ext = "m4a" then .error m4aMessage
  else
    match decoded with
    | .ok full => .ok (ingest_ok full)
    | .error msg =>
        if hasSubstring "Format not recognised".data msg.data then
          .error (formatMessage ext)
        else .error msg

end VoiceAnalysis

namespace VoiceAnalysis

/-- `self.metrics_names` (lines 16-23): metric key → Japanese display label. -/
def metrics_names (k : String) : String :=
  if k = "volume" then "声の大きさ"
  else if k = "clarity" then "声の明瞭度"
  else if k = "pitch_stability" then "音程の安定性"
  else if k = "rhythm" then "リズム・テンポ"
  else if k = "expression" then "表現力"
  else if k = "resonance" then "声の響き"
  else ""

/-- `metrics.items()`: the six key/score pairs in dictionary insertion
order, which is the order `analyze_voice` populates the dictionary. -/
def MetricSet.items (m : MetricSet) : List (String × ℤ) :=
  [("volume", m.volume), ("clarity", m.clarity),
   ("pitch_stability", m.pitch_stability), ("rhythm", m.rhythm),
   ("expression", m.expression), ("resonance", m.resonance)]

/-- Lines 246-249: the `(label, value)` pairs with `value < 60`, in
dictionary iteration order. -/
def weak_points (m : MetricSet) : List (String × ℤ) :=
  (m.items.filter (fun kv => kv.2 < 60)).map (fun kv => (metrics_names kv.1, kv.2))

/-- The comparison used by `weak_points.sort(key=lambda x: x[1])`. -/
def byScore (a b : String × ℤ) : Prop := a.2 ≤ b.2

instance : DecidableRel byScore := fun a b => inferInstanceAs (Decidable (a.2 ≤ b.2))

/-- Line 251, `weak_points.sort(key=lambda x: x[1])`: Python's sort is
stable and ascending on the key; a stable ascending sort is exactly
insertion sort inserting before the first strictly greater element. -/
def sorted_weak_points (m : MetricSet) : List (String × ℤ) :=
  List.insertionSort byScore (weak_points m)

/-- Lines 253-257: the clause naming the lowest one or two weak metrics
with their point values, empty when there is no weak metric. -/
def weaknessClause (m : MetricSet) : String :=
  match sorted_weak_points m with
  | [] => ""
  | [a] =>
      "\n\n特に「" ++ a.1 ++ "」（" ++ toString a.2 ++ "点）" ++
        "の改善に注力することをお勧めします。"
  | a :: b :: _ =>
      "\n\n特に「" ++ a.1 ++ "」（" ++ toString a.2 ++ "点）" ++
        "と「" ++ b.1 ++ "」（" ++ toString b.2 ++ "点）" ++
        "の改善に注力することをお勧めします。"

/-- The six fixed improvement-hint lines (lines 261-272), one per metric. -/
def hintFor (k : String) : String :=
  if k = "volume" then "・呼吸をしっかり使うために、腹式呼吸の練習を行いましょう"
  else if k = "clarity" then "・滑舌を改善するため、口の開き方と舌の位置を意識しましょう"
  else if k = "pitch_stability" then "・音程を安定させるため、ロングトーンの練習を取り入れましょう"
  else if k = "rhythm" then "・リズム感を養うため、メトロノームを使った練習をしましょう"
  else if k = "expression" then "・表現力を高めるため、感情を込めた朗読練習をしましょう"
  else if k = "resonance" then "・声の響きを良くするため、共鳴腔を意識した発声練習をしましょう"
  else ""

/-- Lines 260-272: the hint list, one fixed line per metric scoring below
60, assembled in the fixed order volume, clarity, pitch_stability, rhythm,
expression, resonance. -/
def hints (m : MetricSet) : List String :=
  (if m.volume < 60 then [hintFor "volume"] else []) ++
  (if m.clarity < 60 then [hintFor "clarity"] else []) ++
  (if m.pitch_stability < 60 then [hintFor "pitch_stability"] else []) ++
  (if m.rhythm < 60 then [hintFor "rhythm"] else []) ++
  (if m.expression < 60 then [hintFor "expression"] else []) ++
  (if m.resonance < 60 then [hintFor "resonance"] else [])

/-- The three template sentences per level (lines 214-240), interpolating
the display name. -/
def patterns (level : String) (name : String) : List String :=
  if level = "S" then
    [name ++ "の声は素晴らしい完成度です！プロの領域に達しており、すべての指標で高いバランスを保っています。",
     "驚異的な声質です！" ++ name ++ "の声はプロフェッショナルとして通用する実力を持っています。",
     name ++ "の声の完成度は極めて高いです。全体的なバランスが素晴らしく、プロ級の実力といえるでしょう。"]
  else if level = "A" then
    [name ++ "の声は非常に優れています。もう少しの練習でプロレベルに到達できる素質を持っています。",
     "素晴らしい声質です！" ++ name ++ "の声は高い完成度を誇り、さらなる向上の可能性を秘めています。",
     name ++ "の声は非常に良好です。現在の実力を維持しながら、さらに磨きをかけていきましょう。"]
  else if level = "B" then
    [name ++ "の声は良好な状態です。いくつかの改善点に取り組むことで、さらなる向上が期待できます。",
     "良い声をお持ちです！" ++ name ++ "の声にはまだ伸びしろがあり、練習次第で大きく向上するでしょう。",
     name ++ "の声は基本的な要素が整っています。特定の分野を重点的に練習することで飛躍的な成長が可能です。"]
  else if level = "C" then
    [name ++ "の声は標準的なレベルです。基礎からしっかり練習することで、確実に上達していけるでしょう。",
     "現在の" ++ name ++ "の声は平均的ですが、適切なトレーニングで大きく改善する可能性があります。",
     name ++ "の声には改善の余地があります。焦らず基本から積み上げていくことで、着実に成長できます。"]
  else
    [name ++ "の声にはまだ多くの改善点がありますが、それは成長の可能性が大きいということです。基礎練習から始めましょう。",
     "現在の" ++ name ++ "の声は発展途上です。プロの指導を受けることで、効率的に上達できるでしょう。",
     name ++ "の声は改善の余地が大いにあります。正しい方法で練習すれば、必ず上達します。"]

/-- `VoiceAnalyzer.generate_diagnosis` (lines 208-277).  `random.choice`,
the one randomised step, is modelled by the selection index `pick`
(reduced modulo the three templates per level); everything after the
template choice is deterministic.  The `purpose` argument is accepted and,
as in the source, never used. -/
def generate_diagnosis (m : MetricSet) (purpose : Purpose) (name : String)
    (pick : ℕ) : String × ℤ × String × String :=
  let total_score := totalScore m
  let (level, level_desc) := get_evaluation_level total_score
  let diagnosis := (patterns level name).getD (pick % 3) ""
  let diagnosis := diagnosis ++ weaknessClause m
  let diagnosis :=
    if hints m = [] then diagnosis
    else diagnosis ++ "\n\n【改善のヒント】\n\n" ++ "\n\n".intercalate (hints m)
  (diagnosis, total_score, level, level_desc)

instance : IsTotal (String × ℤ) byScore := ⟨fun a b => le_total a.2 b.2⟩

instance : IsTrans (String × ℤ) byScore := ⟨fun _ _ _ => le_trans⟩

/-- The bounds that actually hold for the scores of `analyze_voice`:
pre-multiplier volume lies in [5,99] (10 when every sample is silent, and
as low as 5 for barely-above-threshold audio), clarity and resonance in
[0,99], pitch stability in [10,99], rhythm in [0,99], expression in
[30,95], and the final total score in [45,594]. -/
def metricBounds (f : Features) (p : Purpose) : Prop :=
  5 ≤ volume_score f ∧ volume_score f ≤ 99 ∧
  0 ≤ clarity_score f ∧ clarity_score f ≤ 99 ∧
  10 ≤ pitch_stability_score f ∧ pitch_stability_score f ≤ 99 ∧
  0 ≤ rhythm_score f p ∧ rhythm_score f p ≤ 99 ∧
  30 ≤ expression_score f ∧ expression_score f ≤ 95 ∧
  0 ≤ resonance_score f ∧ resonance_score f ≤ 99 ∧
  45 ≤ totalScore (analyze_voice f p) ∧ totalScore (analyze_voice f p) ≤ 594

/-- The feature vector of a barely audible, unpitched, silent-spectrum
buffer: the RMS over the (few) samples just above the 0.01 silence
threshold is 0.0101, the mean spectral centroid, tempo and rolloff are 0,
the pitch tracker found frames with standard deviation 1000, and no RMS
frame survives.  All of these are reachable librosa outputs on a
near-silent recording. -/
def quietFeatures : Features := ⟨some (101/10000), 0, some 1000, 0, [], 0, 0⟩

/-- The feature vector of a buffer with twelve equal-energy RMS frames and
a coefficient of variation of 0.05 over them. -/
def dynamicFeatures : Features := ⟨none, 0, none, 0, List.replicate 12 1, 1/20, 0⟩

/-- The canonical position of a metric's display label in the dictionary
insertion order volume, clarity, pitch_stability, rhythm, expression,
resonance. -/
def canonIdx (lbl : String) : ℕ :=
  if lbl = "声の大きさ" then 0
  else if lbl = "声の明瞭度" then 1
  else if lbl = "音程の安定性" then 2
  else if lbl = "リズム・テンポ" then 3
  else if lbl = "表現力" then 4
  else if lbl = "声の響き" then 5
  else 6

/-- The strict order that a stable ascending sort of the weak-point list
realises: strictly smaller score first, and on equal scores the metric
that comes first in canonical order first. -/
def stableOrder (a b : String × ℤ) : Prop :=
  a.2 < b.2 ∨ (a.2 = b.2 ∧ canonIdx a.1 < canonIdx b.1)

end VoiceAnalysis

namespace VoiceAnalysis

/-- On nonnegative values, Python's `int` truncation agrees with the floor. -/
theorem pyInt_eq_floor {q : ℚ} (h : 0 ≤ q) : pyInt q = ⌊q⌋ := by
  rw [Rat.floor_def]
  exact Int.tdiv_eq_ediv (by exact_mod_cast Rat.num_nonneg.mpr h)
    (Int.natCast_nonneg q.den)

theorem pyInt_intCast (n : ℤ) : pyInt ((n : ℚ)) = n := by
  simp [pyInt, Rat.num_intCast, Rat.den_intCast, Int.tdiv_one]

theorem le_pyInt {q : ℚ} {n : ℤ} (hn : 0 ≤ n) (h : (n : ℚ) ≤ q) : n ≤ pyInt q := by
  have h0 : (0 : ℚ) ≤ q := le_trans (by exact_mod_cast hn) h
  rw [pyInt_eq_floor h0]
  exact Int.le_floor.mpr h

theorem pyInt_nonneg {q : ℚ} (h : 0 ≤ q) : 0 ≤ pyInt q :=
  le_pyInt le_rfl (by exact_mod_cast h)

theorem pyInt_eq {q : ℚ} {n : ℤ} (hn : 0 ≤ n) (h1 : (n : ℚ) ≤ q)
    (h2 : q < (n : ℚ) + 1) : pyInt q = n := by
  have h0 : (0 : ℚ) ≤ q := le_trans (by exact_mod_cast hn) h1
  rw [pyInt_eq_floor h0]
  refine Int.floor_eq_iff.mpr ⟨h1, by exact_mod_cast h2⟩

theorem bump_le (x : ℤ) (mult : ℚ) : bump x mult ≤ 99 := min_le_left _ _

theorem le_bump {a x : ℤ} {mult : ℚ} (hax : a ≤ x) (h0 : 0 ≤ a) (hx : x ≤ 99)
    (hm : 1 ≤ mult) : a ≤ bump x mult := by
  refine le_min (le_trans hax hx) (le_pyInt h0 ?_)
  have hx0 : (0 : ℚ) ≤ (x : ℚ) := by exact_mod_cast le_trans h0 hax
  calc (a : ℚ) ≤ (x : ℚ) := by exact_mod_cast hax
    _ ≤ (x : ℚ) * mult := le_mul_of_one_le_right hx0 hm

theorem volume_score_bounds (f : Features) (h : ∀ r ∈ f.rmsNonSilent, 1/100 < r) :
    5 ≤ volume_score f ∧ volume_score f ≤ 99 := by
  cases hrm : f.rmsNonSilent with
  | none => simp [volume_score, hrm]
  | some r =>
      have hr : 1/100 < r := h r (by simp [hrm])
      have h5 : ((5 : ℤ) : ℚ) ≤ r * 500 := by
        push_cast
        nlinarith
      constructor
      · simp only [volume_score, hrm]
        exact le_min (by norm_num) (le_pyInt (by norm_num) h5)
      · simp only [volume_score, hrm]
        exact min_le_left _ _

theorem clarity_score_bounds (f : Features) (h : 0 ≤ f.centroidMean) :
    0 ≤ clarity_score f ∧ clarity_score f ≤ 99 :=
  ⟨le_min (by norm_num) (pyInt_nonneg (by positivity)), min_le_left _ _⟩

theorem pitch_stability_score_bounds (f : Features) :
    10 ≤ pitch_stability_score f ∧ pitch_stability_score f ≤ 99 := by
  cases hps : f.pitchStd with
  | none => simp [pitch_stability_score, hps]
  | some s =>
      exact ⟨by simpa [pitch_stability_score, hps] using le_max_left _ _,
        by simpa [pitch_stability_score, hps] using
          max_le (by norm_num) (min_le_left _ _)⟩

theorem rhythm_score_speaking_ge (f : Features) : 50 ≤ rhythm_score f .speaking := by
  refine le_min (by norm_num) (le_pyInt (by norm_num) ?_)
  have : (0 : ℚ) ≤ |120 - f.tempo| / 2 := by positivity
  push_cast
  linarith

theorem rhythm_score_bounds (f : Features) (h : 0 ≤ f.tempo) (p : Purpose) :
    0 ≤ rhythm_score f p ∧ rhythm_score f p ≤ 99 := by
  cases p with
  | speaking => exact ⟨le_trans (by norm_num) (rhythm_score_speaking_ge f), min_le_left _ _⟩
  | singing => exact ⟨le_min (by norm_num) (pyInt_nonneg (by positivity)), min_le_left _ _⟩
  | presentation => exact ⟨le_min (by norm_num) (pyInt_nonneg (by positivity)), min_le_left _ _⟩

theorem expression_score_bounds (f : Features) :
    30 ≤ expression_score f ∧ expression_score f ≤ 95 := by
  unfold expression_score
  split
  · exact ⟨le_min (by norm_num) (le_max_left _ _), min_le_left _ _⟩
  · norm_num

theorem resonance_score_bounds (f : Features) (h : 0 ≤ f.rolloffMean) :
    0 ≤ resonance_score f ∧ resonance_score f ≤ 99 :=
  ⟨le_min (by norm_num) (pyInt_nonneg (by positivity)), min_le_left _ _⟩

/-- Claim C2: `get_evaluation_level` is a pure step function with inclusive
lower bounds — it returns S (with its fixed description) iff the score is
at least 450, A iff it is in [400,449], B iff in [350,399], C iff in
[300,349] and D iff at most 299; in particular 450→S, 449→A, 400→A, 399→B,
350→B, 349→C, 300→C and 299→D. -/
theorem C2_level_step_function :
    (∀ s : ℤ,
      (get_evaluation_level s = ("S", "プロフェッショナルレベル") ↔ 450 ≤ s) ∧
      (get_evaluation_level s = ("A", "非常に優秀") ↔ 400 ≤ s ∧ s ≤ 449) ∧
      (get_evaluation_level s = ("B", "良好") ↔ 350 ≤ s ∧ s ≤ 399) ∧
      (get_evaluation_level s = ("C", "標準的") ↔ 300 ≤ s ∧ s ≤ 349) ∧
      (get_evaluation_level s = ("D", "改善の余地あり") ↔ s ≤ 299)) ∧
    get_evaluation_level 450 = ("S", "プロフェッショナルレベル") ∧
    get_evaluation_level 449 = ("A", "非常に優秀") ∧
    get_evaluation_level 400 = ("A", "非常に優秀") ∧
    get_evaluation_level 399 = ("B", "良好") ∧
    get_evaluation_level 350 = ("B", "良好") ∧
    get_evaluation_level 349 = ("C", "標準的") ∧
    get_evaluation_level 300 = ("C", "標準的") ∧
    get_evaluation_level 299 = ("D", "改善の余地あり") := by
  refine ⟨fun s => ?_, by decide, by decide, by decide, by decide,
    by decide, by decide, by decide, by decide⟩
  unfold get_evaluation_level
  split_ifs with h1 h2 h3 h4 <;>
    refine ⟨?_, ?_, ?_, ?_, ?_⟩ <;> simp [Prod.ext_iff] <;> omega

/-- Claim C7: given the tempo estimate, the pre-multiplier rhythm score is
`min(99, int(50 + |120 − tempo| / 2))` for purpose speaking and
`min(99, int(tempo / 2))` for singing and presentation; e.g. tempo 100
scores 60 for speaking and 50 otherwise, and tempo 220 exercises the
99 cap for speaking. -/
theorem C7_rhythm_formula :
    (∀ f : Features,
      (baseMetrics f .speaking).rhythm = min 99 (pyInt (50 + |120 - f.tempo| / 2)) ∧
      (baseMetrics f .singing).rhythm = min 99 (pyInt (f.tempo / 2)) ∧
      (baseMetrics f .presentation).rhythm = min 99 (pyInt (f.tempo / 2))) ∧
    rhythm_score ⟨none, 0, none, 100, [], 0, 0⟩ .speaking = 60 ∧
    rhythm_score ⟨none, 0, none, 100, [], 0, 0⟩ .singing = 50 ∧
    rhythm_score ⟨none, 0, none, 100, [], 0, 0⟩ .presentation = 50 ∧
    rhythm_score ⟨none, 0, none, 220, [], 0, 0⟩ .speaking = 99 := by
  have habs : |(120 : ℚ) - 100| = 20 := by
    rw [show (120 : ℚ) - 100 = 20 by norm_num]
    exact abs_of_nonneg (by norm_num)
  have habs2 : |(120 : ℚ) - 220| = 100 := by
    rw [show (120 : ℚ) - 220 = -100 by norm_num]
    rw [abs_neg]
    exact abs_of_nonneg (by norm_num)
  refine ⟨fun f => ⟨rfl, rfl, rfl⟩, ?_, ?_, ?_, ?_⟩
  · show min 99 (pyInt (50 + |(120 : ℚ) - 100| / 2)) = 60
    rw [habs, show (50 + (20 : ℚ) / 2) = ((60 : ℤ) : ℚ) by norm_num, pyInt_intCast]
    decide
  · show min 99 (pyInt ((100 : ℚ) / 2)) = 50
    rw [show ((100 : ℚ) / 2) = ((50 : ℤ) : ℚ) by norm_num, pyInt_intCast]
    decide
  · show min 99 (pyInt ((100 : ℚ) / 2)) = 50
    rw [show ((100 : ℚ) / 2) = ((50 : ℤ) : ℚ) by norm_num, pyInt_intCast]
    decide
  · show min 99 (pyInt (50 + |(120 : ℚ) - 220| / 2)) = 99
    rw [habs2, show (50 + (100 : ℚ) / 2) = ((100 : ℤ) : ℚ) by norm_num, pyInt_intCast]
    decide

/-- Claim C9: for purpose speaking, the final rhythm score after the ×1.1
multiplier and re-cap is always at least 50, whatever the tempo estimate. -/
theorem C9_speaking_rhythm_ge_50 (f : Features) :
    50 ≤ (analyze_voice f .speaking).rhythm := by
  have h1 : 50 ≤ rhythm_score f .speaking := rhythm_score_speaking_ge f
  have h2 : rhythm_score f .speaking ≤ 99 := min_le_left _ _
  exact le_bump h1 (by norm_num) h2 (by norm_num)

/-- Claim C5: the purpose multiplier pass acts on the already-capped
scores, truncating the product to an integer and re-capping at 99:
singing scales pitch_stability by 1.2 and expression by 1.1, speaking
scales clarity by 1.2 and rhythm by 1.1, presentation scales volume and
clarity by 1.1, leaving all other metrics unchanged; a capped
pitch_stability of 80 under singing becomes 96 and one of 90 becomes 99. -/
theorem C5_purpose_multipliers :
    (∀ f : Features,
      ((analyze_voice f .singing).pitch_stability =
          min 99 (pyInt ((pitch_stability_score f : ℚ) * 1.2)) ∧
        (analyze_voice f .singing).expression =
          min 99 (pyInt ((expression_score f : ℚ) * 1.1)) ∧
        (analyze_voice f .singing).volume = volume_score f ∧
        (analyze_voice f .singing).clarity = clarity_score f ∧
        (analyze_voice f .singing).rhythm = rhythm_score f .singing ∧
        (analyze_voice f .singing).resonance = resonance_score f) ∧
      ((analyze_voice f .speaking).clarity =
          min 99 (pyInt ((clarity_score f : ℚ) * 1.2)) ∧
        (analyze_voice f .speaking).rhythm =
          min 99 (pyInt ((rhythm_score f .speaking : ℚ) * 1.1)) ∧
        (analyze_voice f .speaking).volume = volume_score f ∧
        (analyze_voice f .speaking).pitch_stability = pitch_stability_score f ∧
        (analyze_voice f .speaking).expression = expression_score f ∧
        (analyze_voice f .speaking).resonance = resonance_score f) ∧
      ((analyze_voice f .presentation).volume =
          min 99 (pyInt ((volume_score f : ℚ) * 1.1)) ∧
        (analyze_voice f .presentation).clarity =
          min 99 (pyInt ((clarity_score f : ℚ) * 1.1)) ∧
        (analyze_voice f .presentation).pitch_stability = pitch_stability_score f ∧
        (analyze_voice f .presentation).rhythm = rhythm_score f .presentation ∧
        (analyze_voice f .presentation).expression = expression_score f ∧
        (analyze_voice f .presentation).resonance = resonance_score f)) ∧
    bump 80 1.2 = 96 ∧
    bump 90 1.2 = 99 := by
  refine ⟨fun f => ⟨⟨rfl, rfl, rfl, rfl, rfl, rfl⟩,
    ⟨rfl, rfl, rfl, rfl, rfl, rfl⟩, ⟨rfl, rfl, rfl, rfl, rfl, rfl⟩⟩, ?_, ?_⟩
  · show min 99 (pyInt (((80 : ℤ) : ℚ) * 1.2)) = 96
    rw [show ((80 : ℤ) : ℚ) * 1.2 = ((96 : ℤ) : ℚ) by norm_num, pyInt_intCast]
    decide
  · show min 99 (pyInt (((90 : ℤ) : ℚ) * 1.2)) = 99
    rw [show ((90 : ℤ) : ℚ) * 1.2 = ((108 : ℤ) : ℚ) by norm_num, pyInt_intCast]
    decide

/-- Claim C1 (amended): for every valid feature vector and purpose, the
pre-multiplier scores satisfy volume ∈ [5,99], clarity ∈ [0,99],
pitch_stability ∈ [10,99], rhythm ∈ [0,99], expression ∈ [30,95],
resonance ∈ [0,99], and the total of the six final (post-multiplier)
values lies in [45,594].  The bounds [10,99] claimed for volume, clarity,
rhythm and resonance and the bound [60,594] claimed for the total do not
hold (see the counterexample). -/
theorem C1_amended_bounds (f : Features) (p : Purpose) (h : f.Valid) :
    metricBounds f p := by
  obtain ⟨hrm, hc, ht, hro⟩ := h
  obtain ⟨v1, v2⟩ := volume_score_bounds f hrm
  obtain ⟨c1, c2⟩ := clarity_score_bounds f hc
  obtain ⟨q1, q2⟩ := pitch_stability_score_bounds f
  obtain ⟨r1, r2⟩ := rhythm_score_bounds f ht p
  obtain ⟨e1, e2⟩ := expression_score_bounds f
  obtain ⟨s1, s2⟩ := resonance_score_bounds f hro
  refine ⟨v1, v2, c1, c2, q1, q2, r1, r2, e1, e2, s1, s2, ?_, ?_⟩
  · cases p with
    | singing =>
        have b1 := le_bump q1 (by norm_num) q2 (by norm_num : (1:ℚ) ≤ 1.2)
        have b2 := le_bump e1 (by norm_num) (le_trans e2 (by norm_num))
          (by norm_num : (1:ℚ) ≤ 1.1)
        show 45 ≤ volume_score f + clarity_score f +
          bump (pitch_stability_score f) 1.2 + rhythm_score f .singing +
          bump (expression_score f) 1.1 + resonance_score f
        linarith
    | speaking =>
        have b1 := le_bump c1 (by norm_num) c2 (by norm_num : (1:ℚ) ≤ 1.2)
        have b2 := le_bump r1 (by norm_num) r2 (by norm_num : (1:ℚ) ≤ 1.1)
        show 45 ≤ volume_score f + bump (clarity_score f) 1.2 +
          pitch_stability_score f + bump (rhythm_score f .speaking) 1.1 +
          expression_score f + resonance_score f
        linarith
    | presentation =>
        have b1 := le_bump v1 (by norm_num) v2 (by norm_num : (1:ℚ) ≤ 1.1)
        have b2 := le_bump c1 (by norm_num) c2 (by norm_num : (1:ℚ) ≤ 1.1)
        show 45 ≤ bump (volume_score f) 1.1 + bump (clarity_score f) 1.1 +
          pitch_stability_score f + rhythm_score f .presentation +
          expression_score f + resonance_score f
        linarith
  · cases p with
    | singing =>
        have b1 := bump_le (pitch_stability_score f) 1.2
        have b2 := bump_le (expression_score f) 1.1
        show volume_score f + clarity_score f +
          bump (pitch_stability_score f) 1.2 + rhythm_score f .singing +
          bump (expression_score f) 1.1 + resonance_score f ≤ 594
        linarith
    | speaking =>
        have b1 := bump_le (clarity_score f) 1.2
        have b2 := bump_le (rhythm_score f .speaking) 1.1
        show volume_score f + bump (clarity_score f) 1.2 +
          pitch_stability_score f + bump (rhythm_score f .speaking) 1.1 +
          expression_score f + resonance_score f ≤ 594
        linarith
    | presentation =>
        have b1 := bump_le (volume_score f) 1.1
        have b2 := bump_le (clarity_score f) 1.1
        show bump (volume_score f) 1.1 + bump (clarity_score f) 1.1 +
          pitch_stability_score f + rhythm_score f .presentation +
          expression_score f + resonance_score f ≤ 594
        linarith

/-- Witness for C1 (amended), instantiated at the feature vector of a
silent buffer (no sample above the threshold, zero centroid/tempo/rolloff,
no pitched frame, no RMS frames) analysed for speaking. -/
theorem C1_amended_bounds_witness :
    Features.Valid ⟨none, 0, none, 0, [], 0, 0⟩ ∧
      metricBounds ⟨none, 0, none, 0, [], 0, 0⟩ .speaking := by
  have hv : Features.Valid ⟨none, 0, none, 0, [], 0, 0⟩ :=
    ⟨by simp, le_refl 0, le_refl 0, le_refl 0⟩
  exact ⟨hv, C1_amended_bounds _ _ hv⟩

/-- Claim C1 is false as stated: on `quietFeatures` (a valid feature
vector) with purpose presentation, the pre-multiplier clarity score is 0,
outside the claimed [10,99], and the total score of the returned MetricSet
is 55, outside the claimed [60,594]. -/
theorem C1_counterexample :
    Features.Valid quietFeatures ∧
    clarity_score quietFeatures = 0 ∧
    ¬ 10 ≤ clarity_score quietFeatures ∧
    analyze_voice quietFeatures .presentation = ⟨5, 0, 10, 0, 40, 0⟩ ∧
    totalScore (analyze_voice quietFeatures .presentation) = 55 ∧
    ¬ 60 ≤ totalScore (analyze_voice quietFeatures .presentation) := by
  have hvol : volume_score quietFeatures = 5 := by
    show min 99 (pyInt ((101 : ℚ)/10000 * 500)) = 5
    rw [pyInt_eq (by norm_num : (0:ℤ) ≤ 5) (by norm_num) (by norm_num)]
    decide
  have hclar : clarity_score quietFeatures = 0 := by
    show min 99 (pyInt ((0 : ℚ) / 40)) = 0
    rw [show ((0:ℚ)/40) = ((0:ℤ):ℚ) by norm_num, pyInt_intCast]
    decide
  have hpitch : pitch_stability_score quietFeatures = 10 := by
    show max 10 (min 99 (pyInt (99 - (1000 : ℚ) / 10))) = 10
    rw [show (99 - (1000:ℚ)/10) = ((-1:ℤ):ℚ) by norm_num, pyInt_intCast]
    decide
  have hrhy : rhythm_score quietFeatures .presentation = 0 := by
    show min 99 (pyInt ((0 : ℚ) / 2)) = 0
    rw [show ((0:ℚ)/2) = ((0:ℤ):ℚ) by norm_num, pyInt_intCast]
    decide
  have hexp : expression_score quietFeatures = 40 := by
    simp [expression_score, non_silent_frames, quietFeatures]
  have hres : resonance_score quietFeatures = 0 := by
    show min 99 (pyInt ((0 : ℚ) / 50)) = 0
    rw [show ((0:ℚ)/50) = ((0:ℤ):ℚ) by norm_num, pyInt_intCast]
    decide
  have hb5 : bump 5 1.1 = 5 := by
    show min 99 (pyInt (((5:ℤ):ℚ) * 1.1)) = 5
    rw [pyInt_eq (by norm_num : (0:ℤ) ≤ 5) (by push_cast; norm_num) (by push_cast; norm_num)]
    decide
  have hb0 : bump 0 1.1 = 0 := by
    show min 99 (pyInt (((0:ℤ):ℚ) * 1.1)) = 0
    rw [show (((0:ℤ):ℚ) * 1.1) = ((0:ℤ):ℚ) by push_cast; norm_num, pyInt_intCast]
    decide
  have hmetrics : analyze_voice quietFeatures .presentation = ⟨5, 0, 10, 0, 40, 0⟩ := by
    have : analyze_voice quietFeatures .presentation =
        ⟨bump (volume_score quietFeatures) 1.1,
         bump (clarity_score quietFeatures) 1.1,
         pitch_stability_score quietFeatures,
         rhythm_score quietFeatures .presentation,
         expression_score quietFeatures,
         resonance_score quietFeatures⟩ := rfl
    rw [this, hvol, hclar, hpitch, hrhy, hexp, hres, hb5, hb0]
  have hvalid : Features.Valid quietFeatures := by
    refine ⟨?_, le_refl 0, le_refl 0, le_refl 0⟩
    intro r hr
    simp only [quietFeatures, Option.mem_def, Option.some.injEq] at hr
    rw [← hr]
    norm_num
  refine ⟨hvalid, hclar, by rw [hclar]; decide, hmetrics, ?_, ?_⟩
  · rw [hmetrics]; decide
  · rw [hmetrics]; decide

theorem ingest_ok_eq (full : List ℚ) :
    ingest_ok full = (full.take (30 * sample_rate), sample_rate, 30) := by
  have hlen : (full.take (30 * sample_rate)).length ≤ 30 * sample_rate :=
    List.length_take_le _ _
  have hdur : ¬ (30 < ((full.take (30 * sample_rate)).length : ℚ) / (sample_rate : ℚ)) := by
    rw [not_lt, div_le_iff₀ (by norm_num [sample_rate])]
    have h2 : ((full.take (30 * sample_rate)).length : ℚ) ≤ ((30 * sample_rate : ℕ) : ℚ) := by
      exact_mod_cast hlen
    calc ((full.take (30 * sample_rate)).length : ℚ)
        ≤ ((30 * sample_rate : ℕ) : ℚ) := h2
      _ = 30 * (sample_rate : ℚ) := by push_cast; ring
  show (if 30 < ((full.take (30 * sample_rate)).length : ℚ) / (sample_rate : ℚ)
        then (full.take (30 * sample_rate)).take (30 * sample_rate)
        else full.take (30 * sample_rate), sample_rate, (30 : ℚ)) =
      (full.take (30 * sample_rate), sample_rate, 30)
  rw [if_neg hdur]

/-- Claim C3 is false as stated: a file named `clip.flac` whose container
the decode library can open is not rejected — `load_audio` returns an
audio buffer for it. -/
theorem C3_counterexample :
    load_audio "clip.flac" (.ok [0]) = .ok ([0], sample_rate, 30) := by
  have h1 : load_audio "clip.flac" (.ok [0]) = .ok (ingest_ok [0]) := by
    show (if file_extension "clip.flac" = "m4a"
          then Except.error m4aMessage else .ok (ingest_ok [0])) = .ok (ingest_ok [0])
    rw [if_neg (by decide)]
  rw [h1, ingest_ok_eq, List.take_of_length_le (by norm_num [sample_rate])]

/-- Claim C3 (amended): `load_audio` rejects only the `m4a` extension
before decoding; every other filename (including `clip.flac`) is handed to
the decoder, and an unsupported-format error is produced only when the
decoder itself fails with "Format not recognised" — when the decoder can
open the container, an audio buffer is returned; any other decode failure
propagates unchanged.  (The `{wav, mp3}` whitelist exists only in the UI
file-uploader outside `load_audio`.) -/
theorem C3_amended_rejection :
    (∀ d : Except String (List ℚ), load_audio "clip.m4a" d = .error m4aMessage) ∧
    (∀ y : List ℚ, load_audio "clip.flac" (.ok y) =
      .ok (y.take (30 * sample_rate), sample_rate, 30)) ∧
    load_audio "clip.flac" (.error "Error opening: Format not recognised.") =
      .error (formatMessage "flac") ∧
    load_audio "clip.flac" (.error "read timeout") = .error "read timeout" := by
  refine ⟨fun d => ?_, fun y => ?_, ?_, ?_⟩
  · simp only [load_audio]
    rw [if_pos (by decide)]
  · have h1 : load_audio "clip.flac" (.ok y) = .ok (ingest_ok y) := by
      show (if file_extension "clip.flac" = "m4a"
            then Except.error m4aMessage else .ok (ingest_ok y)) = .ok (ingest_ok y)
      rw [if_neg (by decide)]
    rw [h1, ingest_ok_eq]
  · show (if file_extension "clip.flac" = "m4a" then Except.error m4aMessage
          else if hasSubstring "Format not recognised".data
                    "Error opening: Format not recognised.".data
               then Except.error (formatMessage (file_extension "clip.flac"))
               else Except.error "Error opening: Format not recognised.") =
        Except.error (formatMessage "flac")
    rw [if_neg (by decide), if_pos (by decide),
      show file_extension "clip.flac" = "flac" from by decide]
  · show (if file_extension "clip.flac" = "m4a" then Except.error m4aMessage
          else if hasSubstring "Format not recognised".data "read timeout".data
               then Except.error (formatMessage (file_extension "clip.flac"))
               else Except.error "read timeout") =
        Except.error "read timeout"
    rw [if_neg (by decide), if_neg (by decide)]

/-- Claim C4: `load_audio` does truncate long decodes to exactly the first
30 seconds, but it reports the literal duration `30.0` for every input —
including a 10-second one, where the claim (and the discarded computation
`duration = len(y)/sr` at line 44) require `10.0`. -/
theorem C4_duration_evaluation :
    load_audio "long.wav" (.ok (List.replicate (45 * 22050) 0)) =
      .ok (List.replicate (30 * 22050) 0, sample_rate, 30) ∧
    load_audio "short.wav" (.ok (List.replicate (10 * 22050) 0)) =
      .ok (List.replicate (10 * 22050) 0, sample_rate, 30) ∧
    ((List.replicate (30 * 22050) (0 : ℚ)).length : ℚ) / (sample_rate : ℚ) = 30 ∧
    ((List.replicate (10 * 22050) (0 : ℚ)).length : ℚ) / (sample_rate : ℚ) = 10 ∧
    (10 : ℚ) ≠ 30 := by
  refine ⟨?_, ?_, ?_, ?_, by norm_num⟩
  · have h1 : load_audio "long.wav" (.ok (List.replicate (45 * 22050) 0)) =
        .ok (ingest_ok (List.replicate (45 * 22050) 0)) := by
      show (if file_extension "long.wav" = "m4a" then Except.error m4aMessage
            else .ok (ingest_ok (List.replicate (45 * 22050) 0))) =
          .ok (ingest_ok (List.replicate (45 * 22050) 0))
      rw [if_neg (by decide)]
    rw [h1, ingest_ok_eq, List.take_replicate]
    norm_num [sample_rate]
  · have h1 : load_audio "short.wav" (.ok (List.replicate (10 * 22050) 0)) =
        .ok (ingest_ok (List.replicate (10 * 22050) 0)) := by
      show (if file_extension "short.wav" = "m4a" then Except.error m4aMessage
            else .ok (ingest_ok (List.replicate (10 * 22050) 0))) =
          .ok (ingest_ok (List.replicate (10 * 22050) 0))
      rw [if_neg (by decide)]
    rw [h1, ingest_ok_eq, List.take_replicate]
    norm_num [sample_rate]
  · rw [List.length_replicate]
    norm_num [sample_rate]
  · rw [List.length_replicate]
    norm_num [sample_rate]

/-- Claim C8: the pre-multiplier expression score discards RMS frames at
or below 10% of the maximum frame energy, and equals
`int(30 + (stddev/mean) * 650)` clamped to [30, 95] when strictly more
than 10 non-silent frames remain, and the fixed default 40 otherwise; e.g.
twelve equal frames with coefficient of variation 0.05 score 62. -/
theorem C8_expression_formula :
    (∀ f : Features,
      (10 < (non_silent_frames f.rmsFrames).length →
        expression_score f = min 95 (max 30 (pyInt (30 + f.cv * 650)))) ∧
      ((non_silent_frames f.rmsFrames).length ≤ 10 → expression_score f = 40) ∧
      30 ≤ expression_score f ∧ expression_score f ≤ 95 ∧
      (baseMetrics f .singing).expression = expression_score f) ∧
    (∀ frames : List ℚ, ∀ r ∈ frames,
      (r ∈ non_silent_frames frames ↔ (frames.foldr max 0) * (1/10) < r)) ∧
    expression_score dynamicFeatures = 62 := by
  refine ⟨fun f => ⟨?_, ?_, (expression_score_bounds f).1,
      (expression_score_bounds f).2, rfl⟩, ?_, ?_⟩
  · intro h
    unfold expression_score
    rw [if_pos h]
  · intro h
    unfold expression_score
    rw [if_neg (not_lt.mpr h)]
  · intro frames r hr
    simp [non_silent_frames, List.mem_filter, hr]
  · have hfoldr : (List.replicate 12 (1 : ℚ)).foldr max 0 = 1 := by
      norm_num [List.replicate, List.foldr, max_def]
    have hfilter : non_silent_frames (List.replicate 12 (1 : ℚ)) =
        List.replicate 12 (1 : ℚ) := by
      unfold non_silent_frames
      rw [hfoldr]
      norm_num [List.replicate, List.filter]
    have hcount : 10 < (non_silent_frames dynamicFeatures.rmsFrames).length := by
      show 10 < (non_silent_frames (List.replicate 12 (1 : ℚ))).length
      rw [hfilter]
      norm_num
    have h1 : expression_score dynamicFeatures =
        min 95 (max 30 (pyInt (30 + (1/20 : ℚ) * 650))) := by
      unfold expression_score
      rw [if_pos hcount]
      rfl
    rw [h1, pyInt_eq (show (0:ℤ) ≤ 62 by norm_num) (by push_cast; norm_num)
      (by push_cast; norm_num)]
    decide

theorem stableOrder.le {a b : String × ℤ} (h : stableOrder a b) : a.2 ≤ b.2 :=
  h.elim le_of_lt fun h => le_of_eq h.1

theorem pairwise_orderedInsert_stable (x : String × ℤ) :
    ∀ s : List (String × ℤ), s.Pairwise stableOrder →
      (∀ y ∈ s, canonIdx x.1 < canonIdx y.1) →
      (List.orderedInsert byScore x s).Pairwise stableOrder
  | [], _, _ => by simp
  | y :: s, hp, hc => by
    simp only [List.orderedInsert]
    by_cases hxy : byScore x y
    · rw [if_pos hxy]
      have hhead := (List.pairwise_cons.mp hp).1
      refine List.Pairwise.cons ?_ hp
      intro z hz
      rcases List.mem_cons.mp hz with rfl | hz'
      · rcases lt_or_eq_of_le hxy with h | h
        · exact Or.inl h
        · exact Or.inr ⟨h, hc z (by simp)⟩
      · have hxz : x.2 ≤ z.2 := le_trans hxy (hhead z hz').le
        rcases lt_or_eq_of_le hxz with h | h
        · exact Or.inl h
        · exact Or.inr ⟨h, hc z (by simp [hz'])⟩
    · rw [if_neg hxy]
      have hhead := (List.pairwise_cons.mp hp).1
      have hyx : y.2 < x.2 := lt_of_not_le hxy
      refine List.Pairwise.cons ?_ (pairwise_orderedInsert_stable x s
        (List.pairwise_cons.mp hp).2 fun z hz => hc z (by simp [hz]))
      intro z hz
      rcases (List.mem_orderedInsert byScore).mp hz with rfl | hz'
      · exact Or.inl hyx
      · exact hhead z hz'

theorem pairwise_insertionSort_stable :
    ∀ l : List (String × ℤ),
      l.Pairwise (fun a b => canonIdx a.1 < canonIdx b.1) →
      (List.insertionSort byScore l).Pairwise stableOrder
  | [], _ => by simp
  | x :: l, hp => by
    simp only [List.insertionSort]
    refine pairwise_orderedInsert_stable x _
      (pairwise_insertionSort_stable l (List.pairwise_cons.mp hp).2) ?_
    intro y hy
    exact (List.pairwise_cons.mp hp).1 y
      ((List.perm_insertionSort byScore l).mem_iff.mp hy)

theorem weak_points_canonical (m : MetricSet) :
    (weak_points m).Pairwise (fun a b => canonIdx a.1 < canonIdx b.1) := by
  unfold weak_points
  refine List.Pairwise.map _ (fun a b h => h) ?_
  refine List.Pairwise.filter _ ?_
  simp [MetricSet.items, List.pairwise_cons, metrics_names, canonIdx]

/-- Claim C10: the ascending sort of the weak-point list is stable — on
equal scores, tied metrics stay in the canonical dictionary order volume,
clarity, pitch_stability, rhythm, expression, resonance — so the sorted
list (hence the one or two metrics named in the clause) is strictly
ordered and fully determined by the MetricSet; e.g. volume 50 and
resonance 50 sort with volume first. -/
theorem C10_stable_sort :
    (∀ m : MetricSet, (sorted_weak_points m).Pairwise stableOrder) ∧
    sorted_weak_points ⟨50, 99, 98, 97, 90, 50⟩ =
      [("声の大きさ", 50), ("声の響き", 50)] := by
  refine ⟨fun m => pairwise_insertionSort_stable _ (weak_points_canonical m), by decide⟩

theorem weak_points_lt (m : MetricSet) : ∀ lv ∈ weak_points m, lv.2 < 60 := by
  intro lv hlv
  simp only [weak_points, List.mem_map, List.mem_filter] at hlv
  obtain ⟨kv, ⟨_, hkv⟩, rfl⟩ := hlv
  simpa using hkv

theorem mem_weak_points (m : MetricSet) {k : String} {v : ℤ}
    (hk : (k, v) ∈ m.items) (hv : v < 60) : (metrics_names k, v) ∈ weak_points m := by
  refine List.mem_map.mpr ⟨(k, v), List.mem_filter.mpr ⟨hk, by simpa using hv⟩, rfl⟩

/-- Claim C6: `generate_diagnosis` collects exactly the metrics scoring
below 60 (with their labels and values, in dictionary order), sorts them
ascending by score, emits a weakness clause naming the lowest one or two
precisely when the collection is non-empty, and appends exactly one fixed
hint line per metric scoring below 60, independent of level and purpose;
on `{volume:40, clarity:70, pitch_stability:55, rhythm:80, expression:90,
resonance:30}` the sorted weak list is resonance(30), volume(40),
pitch_stability(55), the clause names only resonance and volume, and the
hints are exactly those of volume, pitch_stability and resonance. -/
theorem C6_weakness_and_hints :
    (∀ m : MetricSet,
      (∀ lv ∈ weak_points m, lv.2 < 60) ∧
      (("声の大きさ", m.volume) ∈ weak_points m ↔ m.volume < 60) ∧
      (("声の明瞭度", m.clarity) ∈ weak_points m ↔ m.clarity < 60) ∧
      (("音程の安定性", m.pitch_stability) ∈ weak_points m ↔ m.pitch_stability < 60) ∧
      (("リズム・テンポ", m.rhythm) ∈ weak_points m ↔ m.rhythm < 60) ∧
      (("表現力", m.expression) ∈ weak_points m ↔ m.expression < 60) ∧
      (("声の響き", m.resonance) ∈ weak_points m ↔ m.resonance < 60) ∧
      (sorted_weak_points m).Sorted byScore ∧
      (sorted_weak_points m).Perm (weak_points m) ∧
      (weaknessClause m = "" ↔ weak_points m = []) ∧
      hints m = (m.items.filter (fun kv => kv.2 < 60)).map (fun kv => hintFor kv.1) ∧
      (∀ p₁ p₂ : Purpose, ∀ name : String, ∀ pick : ℕ,
        generate_diagnosis m p₁ name pick = generate_diagnosis m p₂ name pick)) ∧
    sorted_weak_points ⟨40, 70, 55, 80, 90, 30⟩ =
      [("声の響き", 30), ("声の大きさ", 40), ("音程の安定性", 55)] ∧
    weaknessClause ⟨40, 70, 55, 80, 90, 30⟩ =
      "\n\n特に「声の響き」（30点）と「声の大きさ」（40点）の改善に注力することをお勧めします。" ∧
    hints ⟨40, 70, 55, 80, 90, 30⟩ =
      [hintFor "volume", hintFor "pitch_stability", hintFor "resonance"] := by
  refine ⟨fun m => ⟨weak_points_lt m, ?_, ?_, ?_, ?_, ?_, ?_,
      List.sorted_insertionSort byScore _, List.perm_insertionSort byScore _,
      ?_, ?_, fun p₁ p₂ name pick => rfl⟩, by decide, by decide, by decide⟩
  · exact ⟨fun h => weak_points_lt m _ h, fun h =>
      mem_weak_points m (show ("volume", m.volume) ∈ m.items by simp [MetricSet.items]) h⟩
  · exact ⟨fun h => weak_points_lt m _ h, fun h =>
      mem_weak_points m (show ("clarity", m.clarity) ∈ m.items by simp [MetricSet.items]) h⟩
  · exact ⟨fun h => weak_points_lt m _ h, fun h =>
      mem_weak_points m
        (show ("pitch_stability", m.pitch_stability) ∈ m.items by simp [MetricSet.items]) h⟩
  · exact ⟨fun h => weak_points_lt m _ h, fun h =>
      mem_weak_points m (show ("rhythm", m.rhythm) ∈ m.items by simp [MetricSet.items]) h⟩
  · exact ⟨fun h => weak_points_lt m _ h, fun h =>
      mem_weak_points m
        (show ("expression", m.expression) ∈ m.items by simp [MetricSet.items]) h⟩
  · exact ⟨fun h => weak_points_lt m _ h, fun h =>
      mem_weak_points m
        (show ("resonance", m.resonance) ∈ m.items by simp [MetricSet.items]) h⟩
  · constructor
    · intro h
      have hperm : (sorted_weak_points m).Perm (weak_points m) :=
        List.perm_insertionSort byScore _
      cases hs : sorted_weak_points m with
      | nil =>
          rw [hs] at hperm
          exact hperm.symm.eq_nil
      | cons a t =>
          exfalso
          unfold weaknessClause at h
          rw [hs] at h
          cases t with
          | nil =>
              have hlen := congrArg String.length h
              simp only [String.length_append] at hlen
              have hz : ("" : String).length = 0 := rfl
              rw [hz] at hlen
              have h0 : "\n\n特に「".length = 0 := by omega
              exact absurd h0 (by decide)
          | cons b t' =>
              have hlen := congrArg String.length h
              simp only [String.length_append] at hlen
              have hz : ("" : String).length = 0 := rfl
              rw [hz] at hlen
              have h0 : "\n\n特に「".length = 0 := by omega
              exact absurd h0 (by decide)
    · intro h
      unfold weaknessClause sorted_weak_points
      rw [h]
      rfl
  · by_cases h1 : m.volume < 60 <;> by_cases h2 : m.clarity < 60 <;>
      by_cases h3 : m.pitch_stability < 60 <;> by_cases h4 : m.rhythm < 60 <;>
      by_cases h5 : m.expression < 60 <;> by_cases h6 : m.resonance < 60 <;>
      simp [hints, MetricSet.items, List.filter, h1, h2, h3, h4, h5, h6]

/-- Witness for C6, instantiated at the example MetricSet: the volume
entry (score 40) is a weak point, and its recorded score is below 60. -/
theorem C6_weakness_and_hints_witness :
    ("声の大きさ", (40 : ℤ)) ∈ weak_points ⟨40, 70, 55, 80, 90, 30⟩ ∧
      (("声の大きさ", (40 : ℤ)) : String × ℤ).2 < 60 :=
  ⟨((C6_weakness_and_hints.1 ⟨40, 70, 55, 80, 90, 30⟩).2.1).mpr (by decide),
    (C6_weakness_and_hints.1 ⟨40, 70, 55, 80, 90, 30⟩).1 ("声の大きさ", 40)
      (((C6_weakness_and_hints.1 ⟨40, 70, 55, 80, 90, 30⟩).2.1).mpr (by decide))⟩

/-- Witness for C8, instantiated at a feature vector with no RMS frame:
at most 10 non-silent frames remain, so the score is the default 40. -/
theorem C8_expression_formula_witness :
    expression_score ⟨none, 0, none, 0, [], 0, 0⟩ = 40 :=
  (C8_expression_formula.1 ⟨none, 0, none, 0, [], 0, 0⟩).2.1 (by decide)

end VoiceAnalysis
